import Mathlib

/-!
Shallow embedding of the realtime chat core of the `chatroom` repository:
the socket message handlers (`src/backend/socketHandlers/messageHandlers.js`),
the socket authentication middleware (`src/backend/middleware/auth.js`,
`socketAuth`), and the connection/disconnect lifecycle of the server entry
point, together with the Mongoose `Message` and `User` models they use.

Machine conventions: timestamps are natural numbers, document ids are natural
numbers assigned at save time, the document store is a Lean list in insertion
order, and every emitted socket event is recorded as an explicit `Delivery`
(recipient socket id, event name, payload).
-/

namespace Chatroom

/-- Presence status of a user: the `status` enum of the User schema. -/
inductive Status where
  | online
  | offline
  | away
deriving DecidableEq, Repr

/-- A stored user document, restricted to the fields the realtime core reads
and writes (`_id`, `username`, `status`, `lastSeen`). -/
structure UserRec where
  id : Nat
  username : String
  status : Status
  lastSeen : Nat
deriving DecidableEq, Repr

/-- A stored message document: the fields of the Message schema selected by
the handlers (`_id userId username content timestamp createdAt`). -/
structure MessageRec where
  id : Nat
  userId : Nat
  username : String
  content : String
  timestamp : Nat
  createdAt : Nat
deriving DecidableEq, Repr

/-- Payload of an emitted socket event. -/
inductive Payload where
  | errMsg (message : String)
  | msg (m : MessageRec)
  | batch (ms : List MessageRec)
  | typing (userId : Nat) (username : String) (isTyping : Bool)
deriving DecidableEq, Repr

/-- One delivery of one event to one connected socket. `socket.emit` produces
a single delivery to that socket; `io.emit` produces one delivery per
connected socket; `socket.broadcast.emit` produces one delivery per connected
socket other than the sender. -/
structure Delivery where
  recipient : Nat
  event : String
  payload : Payload
deriving DecidableEq, Repr

/-- The javascript value bound to `data.content` in the `message:send`
handler: `undefined` (field absent), a string, or some non-string value.
Every non-string value fails the
`!content || typeof content !== 'string'` guard. -/
inductive JsVal where
  | undef
  | nonString
  | str (s : String)
deriving DecidableEq, Repr

/-- Remove leading and trailing whitespace from a character list. -/
def trimChars (l : List Char) : List Char :=
  (((l.dropWhile Char.isWhitespace).reverse).dropWhile Char.isWhitespace).reverse

/-- Javascript `String.prototype.trim()`: strip whitespace from both ends.
(Defined by structural recursion on the character list so that it evaluates;
it agrees with the library trim on the whitespace characters used here.) -/
def jsTrim (s : String) : String :=
  String.mk (trimChars s.data)

/-- The message document constructed and saved by `handleMessageSend`:
`new Message({userId, username, content: content.trim(), timestamp: new Date()})`
followed by `message.save()`.  The store assigns the next id at save time and
stamps `createdAt` (the `timestamps: true` schema option). -/
def mkSavedMessage (store : List MessageRec) (user : UserRec) (body : String)
    (now : Nat) (createdAt : Nat) : MessageRec :=
  { id := store.length
    userId := user.id
    username := user.username
    content := body
    timestamp := now
    createdAt := createdAt }

/-- `handleMessageSend` from `messageHandlers.js` (lines 31-73).
Guards in source order: the required-content guard
(`!content || typeof content !== 'string' || content.trim().length === 0`),
then the raw-length guard (`content.length > 1000`), then construction and
`save()` (whose success is the `persistOk` flag; on failure the catch block
emits the generic error), then `io.emit('message:new', …)` to every connected
socket. Returns the message store after the call and the list of deliveries. -/
def handleMessageSend (sessions : List Nat) (senderSock : Nat) (user : UserRec)
    (store : List MessageRec) (content : JsVal) (now : Nat) (createdAt : Nat)
    (persistOk : Bool) : List MessageRec × List Delivery :=
  match content with
  | JsVal.str s =>
      if (jsTrim s).length = 0 then
        (store, [⟨senderSock, "message:error", Payload.errMsg "Message content is required"⟩])
      else if s.length > 1000 then
        (store, [⟨senderSock, "message:error",
          Payload.errMsg "Message content cannot exceed 1000 characters"⟩])
      else if persistOk then
        let saved := mkSavedMessage store user (jsTrim s) now createdAt
        (store ++ [saved],
          sessions.map (fun sock => ⟨sock, "message:new", Payload.msg saved⟩))
      else
        (store, [⟨senderSock, "message:error", Payload.errMsg "Failed to send message"⟩])
  | _ => (store, [⟨senderSock, "message:error", Payload.errMsg "Message content is required"⟩])

/-- Stable insertion of a message into a list kept ascending by `timestamp`. -/
def insertByTs (m : MessageRec) : List MessageRec → List MessageRec
  | [] => [m]
  | x :: xs => if x.timestamp ≤ m.timestamp then x :: insertByTs m xs else m :: x :: xs

/-- Sort a message list ascending by `timestamp` (insertion sort). -/
def sortByTs : List MessageRec → List MessageRec
  | [] => []
  | x :: xs => insertByTs x (sortByTs xs)

/-- The history query of `handleLoadMessages`:
`Message.find().sort({timestamp: 1}).limit(50)` — all messages sorted by
`timestamp` ascending, truncated to the first 50. -/
def queryHistory (store : List MessageRec) : List MessageRec :=
  (sortByTs store).take 50

/-- `handleLoadMessages` from `messageHandlers.js` (lines 7-24): on a
successful read, emit the query result as one `message:history` event to the
requesting socket only; on a store read failure emit
`message:error {message: "Failed to load message history"}` to it. -/
def handleLoadMessages (sock : Nat) (store : List MessageRec) (readOk : Bool) :
    List Delivery :=
  if readOk then
    [⟨sock, "message:history", Payload.batch (queryHistory store)⟩]
  else
    [⟨sock, "message:error", Payload.errMsg "Failed to load message history"⟩]

/-- `handleTypingIndicator` from `messageHandlers.js` (lines 81-88):
`socket.broadcast.emit('user:typing', {userId, username, isTyping})` — one
delivery to every connected socket except the sender. -/
def handleTypingIndicator (sessions : List Nat) (senderSock : Nat)
    (user : UserRec) (isTyping : Bool) : List Delivery :=
  (sessions.filter (fun sock => sock != senderSock)).map
    (fun sock => ⟨sock, "user:typing", Payload.typing user.id user.username isTyping⟩)

/-! ### Socket authentication (`src/backend/middleware/auth.js`, `socketAuth`) -/

/-- Symbolic model of a bearer token as `jsonwebtoken` sees it: a token
signed with some secret carrying a subject id and an expiration flag, a
structurally broken token, or a token whose verification throws an exception
that is neither `TokenExpiredError` nor `JsonWebTokenError`. -/
inductive Token where
  | signed (secret : String) (subjectId : Nat) (expired : Bool)
  | malformed
  | throwsOther
deriving DecidableEq, Repr

/-- Outcome of `jwt.verify`, as the catch block of `socketAuth`
discriminates it. -/
inductive VerifyResult where
  | ok (subjectId : Nat)
  | tokenExpiredError
  | jsonWebTokenError
  | otherError
deriving DecidableEq, Repr

/-- `jwt.verify(token, secret)`: signature is checked against the secret
first (a bad signature or malformed token raises `JsonWebTokenError`), then
expiration (`TokenExpiredError` is raised only for a token whose signature
verified). -/
def jwtVerify (tok : Token) (secret : String) : VerifyResult :=
  match tok with
  | Token.signed s uid e =>
      if s ≠ secret then VerifyResult.jsonWebTokenError
      else if e then VerifyResult.tokenExpiredError
      else VerifyResult.ok uid
  | Token.malformed => VerifyResult.jsonWebTokenError
  | Token.throwsOther => VerifyResult.otherError

/-- `process.env.JWT_SECRET || 'your-secret-key'`: the secret actually used
for verification.  Javascript `||` also falls through on the empty string. -/
def effectiveSecret (envSecret : Option String) : String :=
  match envSecret with
  | some s => if s = "" then "your-secret-key" else s
  | none => "your-secret-key"

/-- `User.findById` over the user store: first document whose `_id` matches. -/
def findById (users : List UserRec) (uid : Nat) : Option UserRec :=
  users.find? (fun u => u.id == uid)

/-- `User.findByIdAndUpdate`: apply `f` to every document whose `_id`
matches (at most one in a well-formed store). -/
def updateUser (users : List UserRec) (uid : Nat) (f : UserRec → UserRec) :
    List UserRec :=
  users.map (fun u => if u.id = uid then f u else u)

/-- Result of running the `socketAuth` middleware on one connection attempt:
the user bound to the socket (`socket.user`, `none` when rejected), the user
store after the middleware ran, and the rejection reason passed to
`next(new Error(…))` (`none` on acceptance). -/
structure AuthOutcome where
  boundUser : Option UserRec
  users : List UserRec
  rejection : Option String
deriving DecidableEq, Repr

/-- `socketAuth` from `middleware/auth.js` (lines 35-77): missing token →
"Authentication token is required"; `jwt.verify` failures mapped through the
catch block (`TokenExpiredError` → "Token expired", `JsonWebTokenError` →
"Invalid token", anything else → "Authentication failed"); unknown subject →
"User not found"; otherwise bind `socket.user` and set the user's status to
`online` (only the `status` field — `lastSeen` is untouched here). -/
def socketAuth (auth : Option Token) (secret : String) (users : List UserRec) :
    AuthOutcome :=
  match auth with
  | none => ⟨none, users, some "Authentication token is required"⟩
  | some tok =>
      match jwtVerify tok secret with
      | VerifyResult.tokenExpiredError => ⟨none, users, some "Token expired"⟩
      | VerifyResult.jsonWebTokenError => ⟨none, users, some "Invalid token"⟩
      | VerifyResult.otherError => ⟨none, users, some "Authentication failed"⟩
      | VerifyResult.ok uid =>
          match findById users uid with
          | none => ⟨none, users, some "User not found"⟩
          | some user =>
              ⟨some user,
               updateUser users user.id (fun u => { u with status := Status.online }),
               none⟩

/-- The disconnect handler of the server entry point:
`User.findByIdAndUpdate(socket.user._id, {status: 'offline', lastSeen: new Date()})`. -/
def handleDisconnect (users : List UserRec) (uid : Nat) (now : Nat) :
    List UserRec :=
  updateUser users uid (fun u => { u with status := Status.offline, lastSeen := now })

/-! ### Per-session event dispatch -/

/-- Combined persisted state: user store and message store. -/
structure ChatState where
  users : List UserRec
  messages : List MessageRec
deriving DecidableEq, Repr

/-- One inbound socket event handled by `registerMessageHandlers`:
`message:send` (with the persistence outcome and the clock readings at that
call), `user:typing:start`, or `user:typing:stop`. -/
inductive SessionEvent where
  | send (content : JsVal) (now : Nat) (createdAt : Nat) (persistOk : Bool)
  | typingStart
  | typingStop
deriving DecidableEq, Repr

/-- Dispatch of one inbound event, as wired by `registerMessageHandlers`
(lines 95-105): `message:send` runs `handleMessageSend` (touching only the
message store), the typing events run `handleTypingIndicator` (touching no
store at all). -/
def sessionStep (sessions : List Nat) (senderSock : Nat) (user : UserRec)
    (st : ChatState) : SessionEvent → ChatState × List Delivery
  | SessionEvent.send c now ca ok =>
      let r := handleMessageSend sessions senderSock user st.messages c now ca ok
      (⟨st.users, r.1⟩, r.2)
  | SessionEvent.typingStart => (st, handleTypingIndicator sessions senderSock user true)
  | SessionEvent.typingStop => (st, handleTypingIndicator sessions senderSock user false)

/-- Run a sequence of inbound events of one session, returning the final
state. -/
def runSession (sessions : List Nat) (senderSock : Nat) (user : UserRec) :
    ChatState → List SessionEvent → ChatState
  | st, [] => st
  | st, e :: rest =>
      runSession sessions senderSock user (sessionStep sessions senderSock user st e).1 rest

/-! ### Connection-setup event loop

`registerMessageHandlers` (lines 95-105) calls the async
`handleLoadMessages(socket)` without awaiting it — the history query is
issued, the handler suspends at its `await`, registration of the
`message:send` and typing listeners proceeds synchronously, and the
`message:history` emission runs only when the store responds.  The model
below is the per-session event loop: `connection` runs the synchronous part
of connection setup (query issued, listeners registered), `historyDbResult`
is the resumption of the suspended `handleLoadMessages` (it performs the
emission), and `clientSend` is the arrival and dispatch of a `message:send`
packet.  The order of `historyDbResult` relative to later `clientSend`
events is scheduler-determined: the store's response races with client
packets. -/

/-- Fixed per-session parameters of a loop run. -/
structure LoopConfig where
  sessions : List Nat
  senderSock : Nat
  user : UserRec
  persistOk : Bool
  readOk : Bool
  now : Nat
  createdAt : Nat
deriving DecidableEq, Repr

/-- An event-loop turn of one session. -/
inductive LoopEvent where
  | connection
  | historyDbResult
  | clientSend (content : JsVal)
deriving DecidableEq, Repr

/-- Loop state of one session: whether connection setup has run (history
query issued and listeners registered — both happen in the same synchronous
block), whether the history replay has completed, and the message store. -/
structure LoopState where
  connected : Bool
  historyDone : Bool
  store : List MessageRec
deriving DecidableEq, Repr

/-- Loop state before the connection is established. -/
def initLoop (store : List MessageRec) : LoopState :=
  ⟨false, false, store⟩

/-- One event-loop turn.  `none` marks an event that cannot fire in this
state (a packet cannot be dispatched before listeners exist, the store
responds exactly once to the one issued query). -/
def loopStep (cfg : LoopConfig) (st : LoopState) :
    LoopEvent → Option (LoopState × List Delivery)
  | LoopEvent.connection =>
      if st.connected then none
      else some ({ st with connected := true }, [])
  | LoopEvent.historyDbResult =>
      if st.connected && !st.historyDone then
        some ({ st with historyDone := true },
          handleLoadMessages cfg.senderSock st.store cfg.readOk)
      else none
  | LoopEvent.clientSend c =>
      if st.connected then
        let r := handleMessageSend cfg.sessions cfg.senderSock cfg.user st.store c
          cfg.now cfg.createdAt cfg.persistOk
        some ({ st with store := r.1 }, r.2)
      else none

/-- Run a schedule of event-loop turns; `none` when some turn cannot fire.
Returns the final state and the concatenated emission log. -/
def runLoop (cfg : LoopConfig) :
    LoopState → List LoopEvent → Option (LoopState × List Delivery)
  | st, [] => some (st, [])
  | st, e :: rest =>
      match loopStep cfg st e with
      | none => none
      | some (st', ds) =>
          match runLoop cfg st' rest with
          | none => none
          | some (stf, log) => some (stf, ds ++ log)

/-- True when the schedule processes some `message:send` before the history
replay has completed (before the first `historyDbResult`). -/
def sendBeforeReplayDone : List LoopEvent → Bool
  | [] => false
  | LoopEvent.historyDbResult :: _ => false
  | LoopEvent.clientSend _ :: _ => true
  | LoopEvent.connection :: rest => sendBeforeReplayDone rest

/-- True when the schedule processes some `message:send` before connection
setup (which issues the history query) has run. -/
def sendBeforeConnect : List LoopEvent → Bool
  | [] => false
  | LoopEvent.connection :: _ => false
  | LoopEvent.clientSend _ :: _ => true
  | LoopEvent.historyDbResult :: rest => sendBeforeConnect rest

/-! ## Theorems -/

/-- C1: a `message:send` from an authenticated session whose content is a
string, non-empty after trimming and within the length limit enforced by the
handler, persists exactly one record — appended to the store, carrying the
session's bound user id and display name, the trimmed body, and the send
timestamp — and (after the persist succeeded) broadcasts exactly one
`message:new` event carrying the persisted record to every currently
connected session, the sender included: one delivery per occurrence of each
socket in the connected-session registry. -/
theorem c1_send_success (sessions : List Nat) (senderSock : Nat) (user : UserRec)
    (store : List MessageRec) (s : String) (now ca : Nat)
    (hne : (jsTrim s).length ≠ 0) (hlen : s.length ≤ 1000) :
    handleMessageSend sessions senderSock user store (JsVal.str s) now ca true =
      (store ++ [mkSavedMessage store user (jsTrim s) now ca],
        sessions.map fun sock =>
          Delivery.mk sock "message:new" (Payload.msg (mkSavedMessage store user (jsTrim s) now ca))) ∧
    (mkSavedMessage store user (jsTrim s) now ca).userId = user.id ∧
    (mkSavedMessage store user (jsTrim s) now ca).username = user.username ∧
    (mkSavedMessage store user (jsTrim s) now ca).content = jsTrim s ∧
    (mkSavedMessage store user (jsTrim s) now ca).timestamp = now ∧
    ∀ sock : Nat,
      List.count
          (Delivery.mk sock "message:new" (Payload.msg (mkSavedMessage store user (jsTrim s) now ca)))
          (handleMessageSend sessions senderSock user store (JsVal.str s) now ca true).2
        = List.count sock sessions := by
  have h1000 : ¬ (s.length > 1000) := by omega
  have key : handleMessageSend sessions senderSock user store (JsVal.str s) now ca true =
      (store ++ [mkSavedMessage store user (jsTrim s) now ca],
        sessions.map fun sock =>
          Delivery.mk sock "message:new" (Payload.msg (mkSavedMessage store user (jsTrim s) now ca))) := by
    simp [handleMessageSend, hne, h1000]
  refine ⟨key, rfl, rfl, rfl, rfl, ?_⟩
  intro sock
  rw [key]
  have hinj : Function.Injective (fun sock : Nat =>
      Delivery.mk sock "message:new" (Payload.msg (mkSavedMessage store user (jsTrim s) now ca))) := by
    intro a b h
    exact congrArg Delivery.recipient h
  exact List.count_map_of_injective sessions _ hinj sock

/-- C1 witness: a concrete send of "  hi there  " from socket 1 of three
connected sockets persists one trimmed record and broadcasts it to all
three sockets, the sender included. -/
theorem c1_witness :
    handleMessageSend [1, 2, 3] 1 ⟨5, "alice", Status.offline, 0⟩ []
        (JsVal.str "  hi there  ") 10 11 true =
      ([⟨0, 5, "alice", "hi there", 10, 11⟩],
       [⟨1, "message:new", Payload.msg ⟨0, 5, "alice", "hi there", 10, 11⟩⟩,
        ⟨2, "message:new", Payload.msg ⟨0, 5, "alice", "hi there", 10, 11⟩⟩,
        ⟨3, "message:new", Payload.msg ⟨0, 5, "alice", "hi there", 10, 11⟩⟩]) := by
  have h := c1_send_success [1, 2, 3] 1 ⟨5, "alice", Status.offline, 0⟩ [] "  hi there  " 10 11
    (by decide) (by decide)
  rw [h.1]
  decide

/-- C9: a `message:send` whose content field is absent, not a string, or a
string that is empty after trimming yields exactly one `message:error` event
with message "Message content is required" delivered to the sending session
only, with the store unchanged and nothing broadcast.  The trim-empty case
carries no bound on the raw length, so this rejection applies before the
length check even to over-long all-whitespace bodies. -/
theorem c9_content_required (sessions : List Nat) (senderSock : Nat) (user : UserRec)
    (store : List MessageRec) (now ca : Nat) (persistOk : Bool) :
    (handleMessageSend sessions senderSock user store JsVal.undef now ca persistOk =
      (store, [⟨senderSock, "message:error", Payload.errMsg "Message content is required"⟩])) ∧
    (handleMessageSend sessions senderSock user store JsVal.nonString now ca persistOk =
      (store, [⟨senderSock, "message:error", Payload.errMsg "Message content is required"⟩])) ∧
    (∀ s : String, (jsTrim s).length = 0 →
      handleMessageSend sessions senderSock user store (JsVal.str s) now ca persistOk =
        (store, [⟨senderSock, "message:error", Payload.errMsg "Message content is required"⟩])) := by
  refine ⟨rfl, rfl, ?_⟩
  intro s h
  simp [handleMessageSend, h]

set_option maxRecDepth 8000 in
/-- C9 witness: an absent content field and a 1001-character all-whitespace
body are both rejected with "Message content is required" — the latter shows
the required-content check firing before the length check. -/
theorem c9_witness :
    handleMessageSend [1, 2] 1 ⟨5, "alice", Status.offline, 0⟩ [] JsVal.undef 0 0 true =
      ([], [⟨1, "message:error", Payload.errMsg "Message content is required"⟩]) ∧
    handleMessageSend [1, 2] 1 ⟨5, "alice", Status.offline, 0⟩ []
        (JsVal.str (String.mk (List.replicate 1001 ' '))) 0 0 true =
      ([], [⟨1, "message:error", Payload.errMsg "Message content is required"⟩]) := by
  have h := c9_content_required [1, 2] 1 ⟨5, "alice", Status.offline, 0⟩ [] 0 0 true
  exact ⟨h.1, h.2.2 _ (by decide)⟩

/-- A 1001-character body whose trimmed length is 1000: one thousand `a`
characters followed by a single trailing space. -/
def c3content : String := String.mk (List.replicate 1000 'a' ++ [' '])

set_option maxRecDepth 8000 in
/-- C3 counterexample: the handler checks the RAW length
(`content.length > 1000`), not the trimmed length, so a body whose raw
length is 1001 but whose trimmed length is 1000 is rejected with
"Message content cannot exceed 1000 characters" — the claim says such a body
is accepted. -/
theorem c3_counterexample :
    c3content.length = 1001 ∧ (jsTrim c3content).length = 1000 ∧
    handleMessageSend [1, 2] 1 ⟨5, "alice", Status.offline, 0⟩ []
        (JsVal.str c3content) 0 0 true =
      ([], [⟨1, "message:error",
        Payload.errMsg "Message content cannot exceed 1000 characters"⟩]) := by
  refine ⟨by decide, by decide, by decide⟩

/-- C3 amended: the length limit is enforced on the raw (untrimmed) body.
Every `message:send` whose body is non-empty after trimming and whose RAW
length exceeds 1000 characters is rejected with exactly one `message:error`
"Message content cannot exceed 1000 characters" to the sending session only,
no record persisted, nothing broadcast — this covers in particular every
body whose trimmed length exceeds 1000, but also rejects bodies with raw
length over 1000 and trimmed length within the limit. -/
theorem c3_raw_length_limit (sessions : List Nat) (senderSock : Nat) (user : UserRec)
    (store : List MessageRec) (s : String) (now ca : Nat) (persistOk : Bool)
    (hne : (jsTrim s).length ≠ 0) (hlen : s.length > 1000) :
    handleMessageSend sessions senderSock user store (JsVal.str s) now ca persistOk =
      (store, [⟨senderSock, "message:error",
        Payload.errMsg "Message content cannot exceed 1000 characters"⟩]) := by
  simp [handleMessageSend, hne, hlen]

set_option maxRecDepth 8000 in
/-- C3 amended witness: the raw-length rejection at the concrete
1001-character body `c3content`. -/
theorem c3_raw_length_limit_witness :
    handleMessageSend [9] 3 ⟨5, "alice", Status.offline, 0⟩ []
        (JsVal.str c3content) 4 4 true =
      ([], [⟨3, "message:error",
        Payload.errMsg "Message content cannot exceed 1000 characters"⟩]) :=
  c3_raw_length_limit [9] 3 ⟨5, "alice", Status.offline, 0⟩ [] c3content 4 4 true
    (by decide) (by decide)

/-- C4: when persisting the constructed record fails, the sending session
alone receives a `message:error` with message "Failed to send message", the
store is unchanged, and no `message:new` is delivered to any session — the
broadcast only happens on the success branch after the persist. -/
theorem c4_persist_failure (sessions : List Nat) (senderSock : Nat) (user : UserRec)
    (store : List MessageRec) (s : String) (now ca : Nat)
    (hne : (jsTrim s).length ≠ 0) (hlen : s.length ≤ 1000) :
    handleMessageSend sessions senderSock user store (JsVal.str s) now ca false =
      (store, [⟨senderSock, "message:error", Payload.errMsg "Failed to send message"⟩]) ∧
    ∀ d ∈ (handleMessageSend sessions senderSock user store (JsVal.str s) now ca false).2,
      d.event ≠ "message:new" ∧ d.recipient = senderSock := by
  have h1000 : ¬ (s.length > 1000) := by omega
  have key : handleMessageSend sessions senderSock user store (JsVal.str s) now ca false =
      (store, [⟨senderSock, "message:error", Payload.errMsg "Failed to send message"⟩]) := by
    simp [handleMessageSend, hne, h1000]
  refine ⟨key, ?_⟩
  rw [key]
  intro d hd
  rcases List.mem_singleton.mp hd with rfl
  exact ⟨by simp, rfl⟩

/-- C4 witness: a concrete valid body whose persist fails produces only the
"Failed to send message" error to the sender. -/
theorem c4_witness :
    handleMessageSend [1, 2] 1 ⟨5, "alice", Status.offline, 0⟩ []
        (JsVal.str "hello") 7 8 false =
      ([], [⟨1, "message:error", Payload.errMsg "Failed to send message"⟩]) :=
  (c4_persist_failure [1, 2] 1 ⟨5, "alice", Status.offline, 0⟩ [] "hello" 7 8
    (by decide) (by decide)).1

/-- A store message with id, send time and creation time `i`, authored by
user 1 ("alice"). -/
def c2msg (i : Nat) : MessageRec :=
  ⟨i, 1, "alice", "m", i, i⟩

/-- A store of 51 messages with strictly increasing send times 0..50. -/
def c2store : List MessageRec :=
  (List.range 51).map c2msg

set_option maxRecDepth 8000 in
/-- C2: evidence for the history-replay defect.  On a store of 51 messages
with send times 0..50, `handleLoadMessages` (which runs
`find().sort({timestamp: 1}).limit(50)`) delivers the 50 OLDEST messages
(send times 0..49) as the `message:history` batch: the newest message (send
time 50) is in the store but absent from the batch, although the code's own
comment says "Query last 50 messages" and the claim requires the 50 newest. -/
theorem c2_history_returns_oldest :
    handleLoadMessages 7 c2store true =
      [⟨7, "message:history", Payload.batch ((List.range 50).map c2msg)⟩] ∧
    c2msg 50 ∈ c2store ∧
    c2msg 50 ∉ queryHistory c2store ∧
    ∀ m ∈ queryHistory c2store, m.timestamp < 50 := by
  exact ⟨by decide, by decide, by decide, by decide⟩

/-- C5: the socket authenticator rejects with exactly the reason determined
by the failure — "Authentication token is required" when the credential is
absent, "Invalid token" on signature or structural failure, "Token expired"
on an expired (but correctly signed) credential, "Authentication failed" on
any other verification exception, and "User not found" when the subject id
resolves to no user — and on every rejection no user is bound to the socket
and the user store is untouched (no presence update). -/
theorem c5_auth_rejections (users : List UserRec) (secret : String) :
    (socketAuth none secret users =
      ⟨none, users, some "Authentication token is required"⟩) ∧
    (∀ s uid e, s ≠ secret →
      socketAuth (some (Token.signed s uid e)) secret users =
        ⟨none, users, some "Invalid token"⟩) ∧
    (socketAuth (some Token.malformed) secret users =
      ⟨none, users, some "Invalid token"⟩) ∧
    (∀ uid, socketAuth (some (Token.signed secret uid true)) secret users =
      ⟨none, users, some "Token expired"⟩) ∧
    (socketAuth (some Token.throwsOther) secret users =
      ⟨none, users, some "Authentication failed"⟩) ∧
    (∀ uid, findById users uid = none →
      socketAuth (some (Token.signed secret uid false)) secret users =
        ⟨none, users, some "User not found"⟩) := by
  refine ⟨rfl, ?_, rfl, ?_, rfl, ?_⟩
  · intro s uid e hs
    simp [socketAuth, jwtVerify, hs]
  · intro uid
    simp [socketAuth, jwtVerify]
  · intro uid hfind
    simp [socketAuth, jwtVerify, hfind]

/-- C5 witness: the five rejection reasons at concrete inputs — missing
token, wrongly signed token, malformed token, expired token, a verification
exception of another kind, and an unknown subject id against an empty user
store. -/
theorem c5_witness :
    (socketAuth none "k" [] = ⟨none, [], some "Authentication token is required"⟩) ∧
    (socketAuth (some (Token.signed "j" 0 false)) "k" [] =
      ⟨none, [], some "Invalid token"⟩) ∧
    (socketAuth (some Token.malformed) "k" [] = ⟨none, [], some "Invalid token"⟩) ∧
    (socketAuth (some (Token.signed "k" 0 true)) "k" [] =
      ⟨none, [], some "Token expired"⟩) ∧
    (socketAuth (some Token.throwsOther) "k" [] =
      ⟨none, [], some "Authentication failed"⟩) ∧
    (socketAuth (some (Token.signed "k" 7 false)) "k" [] =
      ⟨none, [], some "User not found"⟩) := by
  have h := c5_auth_rejections [] "k"
  exact ⟨h.1, h.2.1 "j" 0 false (by decide), h.2.2.1, h.2.2.2.1 0, h.2.2.2.2.1,
    h.2.2.2.2.2 7 (by decide)⟩

/-- Helper: `findById` after `findByIdAndUpdate` with an id-preserving
update sees the updated document. -/
theorem findById_updateUser (users : List UserRec) (uid : Nat) (f : UserRec → UserRec)
    (hf : ∀ v, (f v).id = v.id) :
    findById (updateUser users uid f) uid = (findById users uid).map f := by
  induction users with
  | nil => rfl
  | cons u rest ih =>
      by_cases h : u.id = uid
      · have hb : (u.id == uid) = true := by simpa using h
        have hb' : ((f u).id == uid) = true := by
          rw [hf u]; exact hb
        simp [findById, updateUser, List.find?, h, hb, hb']
      · have hb : (u.id == uid) = false := by simpa using h
        simpa [findById, updateUser, List.find?, h, hb] using ih

/-- Helper: the message-event dispatch of a session never writes the user
store — `handleMessageSend` and `handleTypingIndicator` use only the Message
model. -/
theorem runSession_users (sessions : List Nat) (senderSock : Nat) (user : UserRec)
    (st : ChatState) (evs : List SessionEvent) :
    (runSession sessions senderSock user st evs).users = st.users := by
  induction evs generalizing st with
  | nil => rfl
  | cons e rest ih =>
      cases e <;> simp [runSession, sessionStep, ih]

/-- C6: for one successful-authentication/disconnect pair of a session —
with any number of message or typing events in between — the user's stored
status becomes `online` at authentication with `lastSeen` left at its prior
value, the intervening message traffic never touches the user store, and the
disconnect sets status `offline` with `lastSeen` updated to the disconnect
timestamp. -/
theorem c6_presence (users : List UserRec) (uid : Nat) (u : UserRec)
    (secret : String) (sessions : List Nat) (senderSock : Nat)
    (msgs : List MessageRec) (evs : List SessionEvent) (tDisc : Nat)
    (hfind : findById users uid = some u) :
    (socketAuth (some (Token.signed secret uid false)) secret users).boundUser = some u ∧
    findById (socketAuth (some (Token.signed secret uid false)) secret users).users uid =
      some { u with status := Status.online } ∧
    (runSession sessions senderSock u
        ⟨(socketAuth (some (Token.signed secret uid false)) secret users).users, msgs⟩ evs).users =
      (socketAuth (some (Token.signed secret uid false)) secret users).users ∧
    findById
        (handleDisconnect
          (runSession sessions senderSock u
            ⟨(socketAuth (some (Token.signed secret uid false)) secret users).users, msgs⟩
            evs).users
          uid tDisc) uid =
      some { u with status := Status.offline, lastSeen := tDisc } := by
  have hid : u.id = uid := by
    have hp := List.find?_some hfind
    simpa using hp
  have hauth : socketAuth (some (Token.signed secret uid false)) secret users =
      ⟨some u, updateUser users u.id (fun v => { v with status := Status.online }), none⟩ := by
    simp [socketAuth, jwtVerify, hfind]
  have honline : findById
      (socketAuth (some (Token.signed secret uid false)) secret users).users uid =
      some { u with status := Status.online } := by
    rw [hauth]
    show findById (updateUser users u.id _) uid = _
    rw [hid, findById_updateUser users uid
      (fun v => { v with status := Status.online }) (fun v => rfl), hfind]
    simp [hid]
  have hrun : (runSession sessions senderSock u
      ⟨(socketAuth (some (Token.signed secret uid false)) secret users).users, msgs⟩ evs).users =
      (socketAuth (some (Token.signed secret uid false)) secret users).users :=
    runSession_users _ _ _ _ _
  refine ⟨by rw [hauth], honline, hrun, ?_⟩
  rw [hrun, hauth]
  show findById (handleDisconnect (updateUser users u.id _) uid tDisc) uid = _
  rw [hid]
  unfold handleDisconnect
  rw [findById_updateUser _ uid
        (fun v => { v with status := Status.offline, lastSeen := tDisc }) (fun v => rfl),
      findById_updateUser users uid
        (fun v => { v with status := Status.online }) (fun v => rfl), hfind]
  simp [hid]

/-- C6 witness: user 5 ("alice", offline since time 3) is marked online by a
successful authentication with `lastSeen` still 3, stays so across a send
and a typing event, and is marked offline with `lastSeen` 99 by the
disconnect. -/
theorem c6_witness :
    findById (socketAuth (some (Token.signed "k" 5 false)) "k"
        [⟨5, "alice", Status.offline, 3⟩]).users 5 =
      some ⟨5, "alice", Status.online, 3⟩ ∧
    findById
        (handleDisconnect
          (runSession [1] 1 ⟨5, "alice", Status.offline, 3⟩
            ⟨(socketAuth (some (Token.signed "k" 5 false)) "k"
                [⟨5, "alice", Status.offline, 3⟩]).users, []⟩
            [SessionEvent.send (JsVal.str "hi") 7 8 true, SessionEvent.typingStart]).users
          5 99) 5 =
      some ⟨5, "alice", Status.offline, 99⟩ := by
  have h := c6_presence [⟨5, "alice", Status.offline, 3⟩] 5 ⟨5, "alice", Status.offline, 3⟩
    "k" [1] 1 [] [SessionEvent.send (JsVal.str "hi") 7 8 true, SessionEvent.typingStart] 99
    (by decide)
  exact ⟨h.2.1, h.2.2.2⟩

/-- A one-session loop configuration: socket 1 is the only connected
session, bound to user 5 ("alice"); persistence and history reads succeed. -/
def c7cfg : LoopConfig :=
  ⟨[1], 1, ⟨5, "alice", Status.offline, 0⟩, true, true, 3, 4⟩

/-- A schedule in which the client's `message:send` packet is dispatched
before the history query's store response arrives. -/
def c7trace : List LoopEvent :=
  [LoopEvent.connection, LoopEvent.clientSend (JsVal.str "hi"), LoopEvent.historyDbResult]

/-- C7 counterexample: `handleLoadMessages` is called without `await`, so
its completion races with incoming packets.  The schedule `c7trace` is a
valid run of the connection event loop in which the session's own
`message:send` is fully processed — persisted and broadcast — before the
history replay completes: the emission log shows `message:new` strictly
before `message:history`.  Hence it is false that the replay always
completes before the session's subsequent sends are processed. -/
theorem c7_counterexample :
    (runLoop c7cfg (initLoop []) c7trace).isSome = true ∧
    sendBeforeReplayDone c7trace = true ∧
    runLoop c7cfg (initLoop []) c7trace =
      some (⟨true, true, [⟨0, 5, "alice", "hi", 3, 4⟩]⟩,
        [⟨1, "message:new", Payload.msg ⟨0, 5, "alice", "hi", 3, 4⟩⟩,
         ⟨1, "message:history", Payload.batch [⟨0, 5, "alice", "hi", 3, 4⟩]⟩]) ∧
    ¬ (∀ cfg : LoopConfig, ∀ store : List MessageRec, ∀ evs : List LoopEvent,
        (runLoop cfg (initLoop store) evs).isSome = true →
          sendBeforeReplayDone evs = false) := by
  refine ⟨by decide, by decide, by decide, ?_⟩
  intro h
  have hc := h c7cfg [] c7trace (by decide)
  exact absurd hc (by decide)

/-- C7 amended: within a single session the history replay is ISSUED before
any of that session's `message:send` submissions are processed — connection
setup runs the query and registers the listeners in one synchronous block,
and no packet can be dispatched before that block has run — but the replay
need not COMPLETE before subsequent sends are processed; its completion may
interleave after any number of sends. -/
theorem c7_replay_issued_before_sends (cfg : LoopConfig) (store : List MessageRec)
    (evs : List LoopEvent) (h : (runLoop cfg (initLoop store) evs).isSome = true) :
    sendBeforeConnect evs = false := by
  cases evs with
  | nil => rfl
  | cons e rest =>
      cases e with
      | connection => rfl
      | historyDbResult => simp [runLoop, loopStep, initLoop] at h
      | clientSend c => simp [runLoop, loopStep, initLoop] at h

/-- C7 amended witness: a concrete valid schedule, applied to the amended
theorem — no send is processed before connection setup issues the query. -/
theorem c7_amended_witness :
    (runLoop c7cfg (initLoop []) [LoopEvent.connection, LoopEvent.historyDbResult,
        LoopEvent.clientSend (JsVal.str "hi")]).isSome = true ∧
    sendBeforeConnect [LoopEvent.connection, LoopEvent.historyDbResult,
        LoopEvent.clientSend (JsVal.str "hi")] = false :=
  ⟨by decide, c7_replay_issued_before_sends c7cfg []
    [LoopEvent.connection, LoopEvent.historyDbResult, LoopEvent.clientSend (JsVal.str "hi")]
    (by decide)⟩

/-- C8: a `user:typing:start` (resp. `user:typing:stop`) trigger delivers a
single `user:typing` event with payload `{userId, username, isTyping}` —
`isTyping` true for start, false for stop, user fields from the originating
session's bound user — to every other currently connected session, never to
the originating session, and changes no stored state. -/
theorem c8_typing_relay (sessions : List Nat) (senderSock : Nat) (user : UserRec)
    (st : ChatState) :
    (sessionStep sessions senderSock user st SessionEvent.typingStart =
      (st, (sessions.filter (fun sock => sock != senderSock)).map
        (fun sock => ⟨sock, "user:typing", Payload.typing user.id user.username true⟩))) ∧
    (sessionStep sessions senderSock user st SessionEvent.typingStop =
      (st, (sessions.filter (fun sock => sock != senderSock)).map
        (fun sock => ⟨sock, "user:typing", Payload.typing user.id user.username false⟩))) ∧
    (∀ b : Bool, ∀ d ∈ handleTypingIndicator sessions senderSock user b,
      d.recipient ≠ senderSock ∧ d.event = "user:typing" ∧
      d.payload = Payload.typing user.id user.username b) ∧
    (∀ b : Bool, ∀ sock ∈ sessions, sock ≠ senderSock →
      Delivery.mk sock "user:typing" (Payload.typing user.id user.username b) ∈
        handleTypingIndicator sessions senderSock user b) := by
  refine ⟨rfl, rfl, ?_, ?_⟩
  · intro b d hd
    simp only [handleTypingIndicator, List.mem_map, List.mem_filter] at hd
    obtain ⟨sock, ⟨hmem, hne⟩, rfl⟩ := hd
    exact ⟨by simpa using hne, rfl, rfl⟩
  · intro b sock hmem hne
    simp only [handleTypingIndicator, List.mem_map]
    exact ⟨sock, List.mem_filter.mpr ⟨hmem, by simpa using hne⟩, rfl⟩

/-- C8 witness: with sockets 1, 2, 3 connected and socket 2 typing, the
start trigger delivers `isTyping = true` for user 5 ("alice") to sockets 1
and 3 only, leaving the state unchanged; the delivery to socket 1 is also
obtained through the membership clause. -/
theorem c8_witness :
    sessionStep [1, 2, 3] 2 ⟨5, "alice", Status.online, 0⟩ ⟨[], []⟩
        SessionEvent.typingStart =
      (⟨[], []⟩,
       [⟨1, "user:typing", Payload.typing 5 "alice" true⟩,
        ⟨3, "user:typing", Payload.typing 5 "alice" true⟩]) ∧
    Delivery.mk 1 "user:typing" (Payload.typing 5 "alice" true) ∈
      handleTypingIndicator [1, 2, 3] 2 ⟨5, "alice", Status.online, 0⟩ true := by
  constructor
  · rw [(c8_typing_relay [1, 2, 3] 2 ⟨5, "alice", Status.online, 0⟩ ⟨[], []⟩).1]
    decide
  · exact (c8_typing_relay [1, 2, 3] 2 ⟨5, "alice", Status.online, 0⟩ ⟨[], []⟩).2.2.2
      true 1 (by decide) (by decide)

/-- C10: with the `JWT_SECRET` environment variable unset, the verification
secret is the hard-coded constant "your-secret-key", and a well-formed,
unexpired token signed with that constant whose subject id resolves to an
existing user is accepted: the connection binds that user as the session
user, no rejection is raised, and the user is marked online. -/
theorem c10_default_secret (users : List UserRec) (uid : Nat) (u : UserRec)
    (hfind : findById users uid = some u) :
    effectiveSecret none = "your-secret-key" ∧
    socketAuth (some (Token.signed "your-secret-key" uid false))
        (effectiveSecret none) users =
      ⟨some u, updateUser users u.id (fun v => { v with status := Status.online }), none⟩ := by
  refine ⟨rfl, ?_⟩
  simp [socketAuth, jwtVerify, effectiveSecret, hfind]

/-- C10 witness: user 7 ("bob") is authenticated by a token signed with the
fallback constant when no environment secret is set. -/
theorem c10_witness :
    socketAuth (some (Token.signed "your-secret-key" 7 false)) (effectiveSecret none)
        [⟨7, "bob", Status.offline, 2⟩] =
      ⟨some ⟨7, "bob", Status.offline, 2⟩, [⟨7, "bob", Status.online, 2⟩], none⟩ := by
  rw [(c10_default_secret [⟨7, "bob", Status.offline, 2⟩] 7 ⟨7, "bob", Status.offline, 2⟩
    (by decide)).2]
  decide

end Chatroom
